import Mathlib

/-!
Verification development for the contact-sync repository.

Part A embeds the JavaScript services that live in the repository
(`message-router/index.js`, `email-service/index.js`): request fields are
`Option String` (a JavaScript `undefined` is `none`), JS falsiness of a
string value is "absent or empty", and each HTTP handler becomes a pure
function from the request (plus the outcomes of its external calls, which
the handler cannot influence) to its response and the list of side effects
it performs.

Part B models the Contact Reconciliation Engine (contact model, merge,
webhook listener, reconciliation cycle, export/import).  Its Python
sources (`contact_model.py`, `sync_engine.py`, `webhook_handler.py`,
`main.py`) are referenced by the repository documentation but are not
present in the repository snapshot, so those definitions are modelled
from the specification, as marked in their doc comments.
-/

namespace ContactSync

/-- JavaScript `x || d` for an optional string `x`: `undefined` and `""`
are falsy, every other string is truthy. -/
def jsOr (x : Option String) (d : String) : String :=
  match x with
  | none => d
  | some s => if s = "" then d else s

/-- JavaScript truthiness of an optional string. -/
def jsTruthy (x : Option String) : Bool :=
  match x with
  | none => false
  | some s => s ≠ ""

/-- Whether a character is JavaScript string-trim whitespace (the
whitespace occurring in this data: space, tab, newline, carriage
return). -/
def isSpaceChar (c : Char) : Bool :=
  c = ' ' || c = '\t' || c = '\n' || c = '\r'

/-- JavaScript `String.prototype.trim`: strip whitespace from both ends
of a string. -/
def jsTrim (s : String) : String :=
  String.mk (((s.data.dropWhile isSpaceChar).reverse.dropWhile isSpaceChar).reverse)

/-- JavaScript template-literal interpolation of an optional string:
`undefined` prints as the string `"undefined"`. -/
def jsStr (x : Option String) : String :=
  match x with
  | none => "undefined"
  | some s => s

/-- The raw form submission as received by `POST /submit` of the
message router (and forwarded verbatim to the email service).  Every
field may be absent. -/
structure Submission where
  first_name : Option String
  surname : Option String
  number : Option String
  location : Option String
  address_line_1 : Option String
  suburb : Option String
  state : Option String
  postcode : Option String
  country : Option String
  escooter_make : Option String
  escooter_model : Option String
  issue : Option String
  issue_extra : Option String
  website_url : Option String
deriving DecidableEq, Repr

/-- The JSON record the message router builds for the contact-sync
service (`syncData` in `message-router/index.js`).  `first_name`,
`last_name` and `phone` are copied without defaulting, so they stay
`undefined` when the input is `undefined` (and are then dropped from the
serialized JSON); the remaining fields are always-present strings. -/
structure SyncRecord where
  first_name : Option String
  last_name : Option String
  phone : Option String
  email : String
  address_line_1 : String
  suburb : String
  state : String
  postcode : String
  country : String
  company : String
  notes : String
  escooter1 : String
  timestamp : String
deriving DecidableEq, Repr

/-- The `syncData` record built in `message-router/index.js` lines
30-44.  `now` stands for `new Date().toISOString()`. -/
def syncData (r : Submission) (now : String) : SyncRecord :=
  { first_name := r.first_name
    last_name := r.surname
    phone := r.number
    email := ""
    address_line_1 := jsOr r.address_line_1 ""
    suburb := jsOr r.suburb ""
    state := jsOr r.state ""
    postcode := jsOr r.postcode ""
    country := jsOr r.country ""
    company := ""
    notes := jsOr r.issue "No Issue" ++ ": " ++ jsOr r.issue_extra ""
    escooter1 := jsTrim (jsOr r.escooter_make "" ++ " " ++ jsOr r.escooter_model "")
    timestamp := now }

/-- The field names present in the JSON serialization of a `SyncRecord`,
in object-literal order: a JavaScript field holding `undefined` is
omitted by `JSON.stringify`, all other fields are emitted. -/
def SyncRecord.jsonFields (d : SyncRecord) : List String :=
  (if d.first_name.isSome then ["first_name"] else []) ++
  (if d.last_name.isSome then ["last_name"] else []) ++
  (if d.phone.isSome then ["phone"] else []) ++
  ["email", "address_line_1", "suburb", "state", "postcode", "country",
   "company", "notes", "escooter1", "timestamp"]

/-- The field list claimed for the inbound submission boundary in §6 of
the specification. -/
def specBoundaryFields : List String :=
  ["first_name", "last_name", "email", "phone", "address_line_1", "suburb",
   "state", "postcode", "country", "company", "notes", "timestamp"]

/-- Outcome of one fire-and-forget downstream HTTP call. -/
inductive DownstreamOutcome
  | ok
  | failed (msg : String)
deriving DecidableEq, Repr

/-- The alert payload the router builds for the node-box push service
(`alertPayload` in `message-router/index.js` lines 47-52). -/
structure AlertPayload where
  app : String
  target : String
  title : String
  body : String
deriving DecidableEq, Repr

def alertPayload (r : Submission) : AlertPayload :=
  { app := "pushbullet"
    target := "dandroid"
    title := "Submit " ++ jsStr r.first_name ++ ", " ++ jsOr r.issue "New Lead"
    body := "Name: " ++ jsStr r.first_name ++ " " ++ jsStr r.surname ++
      "\nPhone: " ++ jsStr r.number ++ "\nIssue: " ++ jsOr r.issue "No Issue" ++ "\n" }

/-- One outbound POST of the router, tagged by its payload shape. -/
inductive RouterPayload
  | sync (d : SyncRecord)
  | alert (a : AlertPayload)
  | raw (r : Submission)
deriving DecidableEq, Repr

def contactSyncUrl : String := "http://contact-sync:7173/submit"
def nodeBoxUrl : String := "http://node-box:3003/push"
def emailServiceUrl : String := "http://email-service:3002/send-email"

/-- HTTP response of the router's `/submit` handler. -/
structure RouterResponse where
  status : Nat
  success : Bool
  message : String
deriving DecidableEq, Repr

/-- The three forwards issued by `POST /submit` of the router, in source
order.  The posts are fire-and-forget, so the list depends neither on the
outcomes of the calls nor on any server state. -/
def routerForwards (r : Submission) (now : String) : List (String × RouterPayload) :=
  [(contactSyncUrl, RouterPayload.sync (syncData r now)),
   (nodeBoxUrl, RouterPayload.alert (alertPayload r)),
   (emailServiceUrl, RouterPayload.raw r)]

/-- The response of `POST /submit`: sent unconditionally after the three
forwards are launched, so it is a function of nothing the downstream
services do.  `outs` carries the downstream outcomes to make that
independence a statement rather than a convention. -/
def routerRespond (r : Submission)
    (outs : DownstreamOutcome × DownstreamOutcome × DownstreamOutcome) : RouterResponse :=
  { status := 200
    success := true
    message := "Submission received and routing in progress" }

/-- Result of the `transporter.sendMail` call in the email service. -/
inductive SmtpResult
  | ok
  | err (msg : String)
deriving DecidableEq, Repr

/-- HTTP response of the email service's `/send-email` handler. -/
structure EmailResponse where
  status : Nat
  success : Bool
  message : String
  error : Option String
deriving DecidableEq, Repr

/-- A side effect of the `/send-email` handler, in the order performed:
the SMTP send attempt, the background forward of a sync record to the
contact-sync service, and the background push to the message-center
webhook. -/
inductive EmailEffect
  | smtpSend
  | forwardSync (d : SyncRecord)
  | forwardPush (a : AlertPayload)
deriving DecidableEq, Repr

/-- Whether an `EmailEffect` is one of the background forwards. -/
def EmailEffect.isForward : EmailEffect → Bool
  | EmailEffect.smtpSend => false
  | EmailEffect.forwardSync _ => true
  | EmailEffect.forwardPush _ => true

/-- The sync record the first `/send-email` version builds on SMTP
success (`email-service/index.js` lines 76-90).  Unlike the router's
`syncData`, `notes` and `escooter1` interpolate `issue`,
`escooter_make` and `escooter_model` directly (an absent value prints
as `"undefined"`) and `escooter1` is not trimmed. -/
def emailSyncData (r : Submission) (now : String) : SyncRecord :=
  { first_name := r.first_name
    last_name := r.surname
    phone := r.number
    email := ""
    address_line_1 := jsOr r.address_line_1 ""
    suburb := jsOr r.suburb ""
    state := jsOr r.state ""
    postcode := jsOr r.postcode ""
    country := jsOr r.country ""
    company := ""
    notes := jsStr r.issue ++ ": " ++ jsOr r.issue_extra ""
    escooter1 := jsStr r.escooter_make ++ " " ++ jsStr r.escooter_model
    timestamp := now }

/-- The pushbullet payload the first `/send-email` version forwards to
the message-center webhook (`email-service/index.js` lines 101-106). -/
def emailPushPayload (r : Submission) : AlertPayload :=
  { app := "pushbullet"
    target := "dandroid"
    title := "Submit " ++ jsStr r.first_name ++ ", " ++ jsStr r.issue
    body := "Name: " ++ jsStr r.first_name ++ " " ++ jsStr r.surname ++
      "\nPhone: " ++ jsStr r.number ++ "\nIssue: " ++ jsStr r.issue ++ "\n" }

/-- The fake-success response the honeypot branch returns, identical to
the genuine success response. -/
def emailSuccessResponse : EmailResponse :=
  { status := 200, success := true, message := "Email sent successfully", error := none }

/-- The 500 response on SMTP failure. -/
def emailFailureResponse (msg : String) : EmailResponse :=
  { status := 500, success := false, message := "Failed to send email", error := some msg }

/-- First version of the `/send-email` handler
(`email-service/index.js` lines 15-130): honeypot check, SMTP send, then
background forwards to contact-sync and the message-center webhook on
success.  `smtp` is the outcome of the `sendMail` call; `now` stands for
`new Date().toISOString()`. -/
def sendEmailV1 (r : Submission) (smtp : SmtpResult) (now : String) :
    EmailResponse × List EmailEffect :=
  if jsTruthy r.website_url then
    (emailSuccessResponse, [])
  else
    match smtp with
    | SmtpResult.ok =>
        (emailSuccessResponse,
         [EmailEffect.smtpSend,
          EmailEffect.forwardSync (emailSyncData r now),
          EmailEffect.forwardPush (emailPushPayload r)])
    | SmtpResult.err msg =>
        (emailFailureResponse msg, [EmailEffect.smtpSend])

/-- Second version of the `/send-email` handler
(`email-service/index.js` lines 150-211): identical honeypot check and
SMTP send, without the background forwards. -/
def sendEmailV2 (r : Submission) (smtp : SmtpResult) :
    EmailResponse × List EmailEffect :=
  if jsTruthy r.website_url then
    (emailSuccessResponse, [])
  else
    match smtp with
    | SmtpResult.ok => (emailSuccessResponse, [EmailEffect.smtpSend])
    | SmtpResult.err msg => (emailFailureResponse msg, [EmailEffect.smtpSend])

/-- Modelled from the spec: the three contact sources of §2 — the
managed contacts directory, the point-of-sale customer database, and the
local submission form (the Python connector sources are not in the
repository snapshot). -/
inductive Source
  | directory
  | pos
  | form
deriving DecidableEq, Repr

/-- Pointwise combination of two optional values: present values are
combined by `f`, a value present on one side only is kept. -/
def combineOpt {α : Type} (f : α → α → α) : Option α → Option α → Option α
  | some a, some b => some (f a b)
  | some a, none => some a
  | none, some b => some b
  | none, none => none

/-- Modelled from the spec: a mapping from source-name to a value, with
zero or one entry per source (§3: `source_ids`, `source_timestamps`). -/
structure SMap (α : Type) where
  directory : Option α
  pos : Option α
  form : Option α
deriving DecidableEq, Repr

/-- Per-source pointwise merge of two source maps. -/
def SMap.merge {α : Type} (f : α → α → α) (x y : SMap α) : SMap α :=
  { directory := combineOpt f x.directory y.directory
    pos := combineOpt f x.pos y.pos
    form := combineOpt f x.form y.form }

/-- Modelled from the spec: an address record
(street/suburb/state/postcode/country, §3). -/
structure Address where
  street : String
  suburb : String
  state : String
  postcode : String
  country : String
deriving DecidableEq, Repr

/-- Modelled from the spec: the canonical unified Contact record of §3.
`emails` and `phones` are sets of strings; `addresses` is an ordered
sequence with exact-match duplicates suppressed; `notes` is the ordered
sequence of note chunks accumulated across merges (concatenated, never
overwritten, a chunk already present is not appended again, which is
what makes re-merging a no-op); `content_hash` is derived and therefore
not stored. -/
structure Contact where
  internal_id : String
  source_ids : SMap String
  emails : Finset String
  phones : Finset String
  addresses : List Address
  names : String
  company : String
  notes : List String
  source_timestamps : SMap Nat
deriving DecidableEq

/-- ASCII lowercasing of one character, as used to canonicalize email
addresses. -/
def lowerChar (c : Char) : Char :=
  if 65 ≤ c.toNat ∧ c.toNat ≤ 90 then Char.ofNat (c.toNat + 32) else c

/-- ASCII lowercasing of a string. -/
def lowerStr (s : String) : String :=
  String.mk (s.data.map lowerChar)

/-- Modelled from the spec: the merge key of §3 — the lowercased primary
email address; a contact without any email has no merge key.  The
primary email is the least lowercased email. -/
def mergeKey (c : Contact) : Option String :=
  (c.emails.image lowerStr).min

/-- The most recent last-known-modified time across all sources of a
timestamp map (0 when the map is empty). -/
def tsTop (m : SMap Nat) : Nat :=
  max (m.directory.getD 0) (max (m.pos.getD 0) (m.form.getD 0))

/-- Modelled from the spec: the configured fixed source-priority ranking
of §4.1 used to resolve equal-timestamp conflicts (directory over
point-of-sale over form). -/
def prioOf (ids : SMap String) : Nat :=
  max (if ids.directory.isSome then 3 else 0)
    (max (if ids.pos.isSome then 2 else 0) (if ids.form.isSome then 1 else 0))

/-- Modelled from the spec: field-level merge policy for a scalar field
(§3, §4.1): an empty value never wins (no information loss); otherwise
last-writer-wins by timestamp, then by source priority, and a remaining
tie is resolved deterministically by taking the larger value. -/
def pickScalar (ta pa tb pb : Nat) (a b : String) : String :=
  if a = "" then b
  else if b = "" then a
  else if tb < ta then a
  else if ta < tb then b
  else if pb < pa then a
  else if pa < pb then b
  else max a b

/-- Modelled from the spec: `merge(existing, incoming)` of §4.1 for two
contacts sharing a merge key.  Scalar fields are last-writer-wins with
the priority tie-break; `emails` and `phones` are unioned; `addresses`
and `notes` are appended with already-present entries suppressed;
`source_ids` only grow, a conflicting native id is resolved
deterministically (least id); `source_timestamps` is monotonic-max per
source; the existing record keeps its `internal_id`. -/
def merge (a b : Contact) : Contact :=
  let ta := tsTop a.source_timestamps
  let tb := tsTop b.source_timestamps
  let pa := prioOf a.source_ids
  let pb := prioOf b.source_ids
  { internal_id := a.internal_id
    source_ids := SMap.merge min a.source_ids b.source_ids
    emails := a.emails ∪ b.emails
    phones := a.phones ∪ b.phones
    addresses := a.addresses ++ b.addresses.filter (fun x => decide (x ∉ a.addresses))
    names := pickScalar ta pa tb pb a.names b.names
    company := pickScalar ta pa tb pb a.company b.company
    notes := a.notes ++ b.notes.filter (fun x => decide (x ∉ a.notes))
    source_timestamps := SMap.merge max a.source_timestamps b.source_timestamps }

/-- Field-set equality of two contacts (§3, §8): equality of every data
field, where the ordered collections `addresses` and `notes` are
compared as sets of entries.  `internal_id` is record identity, not part
of the field set, and `content_hash` is derived. -/
def fieldSetEq (x y : Contact) : Prop :=
  x.source_ids = y.source_ids ∧ x.emails = y.emails ∧ x.phones = y.phones ∧
  x.addresses.toFinset = y.addresses.toFinset ∧ x.names = y.names ∧
  x.company = y.company ∧ x.notes.toFinset = y.notes.toFinset ∧
  x.source_timestamps = y.source_timestamps

/-- Value of a source map at one source. -/
def SMap.get {α : Type} (m : SMap α) : Source → Option α
  | Source.directory => m.directory
  | Source.pos => m.pos
  | Source.form => m.form

lemma combineOpt_comm {α : Type} (f : α → α → α) (hf : ∀ x y, f x y = f y x)
    (a b : Option α) : combineOpt f a b = combineOpt f b a := by
  cases a <;> cases b <;> simp [combineOpt] <;> exact hf _ _

lemma combineOpt_absorb {α : Type} (f : α → α → α)
    (habs : ∀ x y, f (f x y) y = f x y) (hidem : ∀ x, f x x = x)
    (a b : Option α) : combineOpt f (combineOpt f a b) b = combineOpt f a b := by
  cases a <;> cases b <;> simp [combineOpt] <;> first | exact hidem _ | exact habs _ _

lemma combineOpt_isSome {α : Type} (f : α → α → α) (a b : Option α) :
    (combineOpt f a b).isSome = (a.isSome || b.isSome) := by
  cases a <;> cases b <;> simp [combineOpt]

lemma SMap.merge_comm {α : Type} (f : α → α → α) (hf : ∀ x y, f x y = f y x)
    (x y : SMap α) : SMap.merge f x y = SMap.merge f y x := by
  simp only [SMap.merge, SMap.mk.injEq]
  exact ⟨combineOpt_comm f hf _ _, combineOpt_comm f hf _ _, combineOpt_comm f hf _ _⟩

lemma SMap.merge_absorb {α : Type} (f : α → α → α)
    (habs : ∀ x y, f (f x y) y = f x y) (hidem : ∀ x, f x x = x)
    (x y : SMap α) : SMap.merge f (SMap.merge f x y) y = SMap.merge f x y := by
  simp only [SMap.merge, SMap.mk.injEq]
  exact ⟨combineOpt_absorb f habs hidem _ _, combineOpt_absorb f habs hidem _ _,
    combineOpt_absorb f habs hidem _ _⟩

lemma combineOpt_max_getD (a b : Option Nat) :
    (combineOpt max a b).getD 0 = max (a.getD 0) (b.getD 0) := by
  cases a <;> cases b <;> simp [combineOpt]

lemma tsTop_merge (x y : SMap Nat) :
    tsTop (SMap.merge max x y) = max (tsTop x) (tsTop y) := by
  simp only [tsTop, SMap.merge, combineOpt_max_getD]
  omega

lemma prioOf_merge (x y : SMap String) :
    prioOf (SMap.merge min x y) = max (prioOf x) (prioOf y) := by
  simp only [prioOf, SMap.merge, combineOpt_isSome]
  cases x.directory.isSome <;> cases x.pos.isSome <;> cases x.form.isSome <;>
    cases y.directory.isSome <;> cases y.pos.isSome <;> cases y.form.isSome <;>
    simp <;> omega

lemma pickScalar_comm (ta pa tb pb : Nat) (a b : String) :
    pickScalar tb pb ta pa b a = pickScalar ta pa tb pb a b := by
  unfold pickScalar
  split_ifs <;> first | rfl | omega | exact max_comm b a | (subst_vars; rfl)

lemma pickScalar_self (t p t' p' : Nat) (x : String) :
    pickScalar t p t' p' x x = x := by
  unfold pickScalar
  split_ifs <;> first | rfl | exact max_self x

lemma pickScalar_absorb (ta pa tb pb : Nat) (a b : String) :
    pickScalar (max ta tb) (max pa pb) tb pb (pickScalar ta pa tb pb a b) b
      = pickScalar ta pa tb pb a b := by
  by_cases ha : a = ""
  · rw [show pickScalar ta pa tb pb a b = b from by rw [pickScalar, if_pos ha]]
    exact pickScalar_self _ _ _ _ b
  · by_cases hb : b = ""
    · rw [show pickScalar ta pa tb pb a b = a from by
        rw [pickScalar, if_neg ha, if_pos hb]]
      rw [pickScalar, if_neg ha, if_pos hb]
    · rcases Nat.lt_trichotomy ta tb with hlt | heq | hgt
      · rw [show pickScalar ta pa tb pb a b = b from by
          rw [pickScalar, if_neg ha, if_neg hb, if_neg (by omega), if_pos hlt]]
        exact pickScalar_self _ _ _ _ b
      · rcases Nat.lt_trichotomy pa pb with plt | peq | pgt
        · rw [show pickScalar ta pa tb pb a b = b from by
            rw [pickScalar, if_neg ha, if_neg hb, if_neg (by omega),
              if_neg (by omega), if_neg (by omega), if_pos plt]]
          exact pickScalar_self _ _ _ _ b
        · rw [show pickScalar ta pa tb pb a b = max a b from by
            rw [pickScalar, if_neg ha, if_neg hb, if_neg (by omega),
              if_neg (by omega), if_neg (by omega), if_neg (by omega)]]
          have hm : max a b ≠ "" := by
            rcases max_choice a b with hc | hc <;> rw [hc] <;> assumption
          rw [pickScalar, if_neg hm, if_neg hb, if_neg (by omega), if_neg (by omega),
            if_neg (by omega), if_neg (by omega), max_assoc, max_self]
        · rw [show pickScalar ta pa tb pb a b = a from by
            rw [pickScalar, if_neg ha, if_neg hb, if_neg (by omega),
              if_neg (by omega), if_pos pgt]]
          rw [pickScalar, if_neg ha, if_neg hb, if_neg (by omega), if_neg (by omega),
            if_pos (show pb < max pa pb by omega)]
      · rw [show pickScalar ta pa tb pb a b = a from by
          rw [pickScalar, if_neg ha, if_neg hb, if_pos hgt]]
        rw [pickScalar, if_neg ha, if_neg hb, if_pos (by omega)]

lemma pickScalar_ne_empty (ta pa tb pb : Nat) (a b : String) (h : a ≠ "" ∨ b ≠ "") :
    pickScalar ta pa tb pb a b ≠ "" := by
  unfold pickScalar
  split_ifs with h1 h2 <;> try tauto
  rcases max_choice a b with hc | hc <;> rw [hc] <;> tauto

lemma toFinset_dedupAppend {α : Type} [DecidableEq α] (l₁ l₂ : List α) :
    (l₁ ++ l₂.filter (fun x => decide (x ∉ l₁))).toFinset = l₁.toFinset ∪ l₂.toFinset := by
  ext x
  simp only [List.toFinset_append, Finset.mem_union, List.mem_toFinset, List.mem_filter,
    decide_eq_true_eq]
  tauto

lemma dedupAppend_ne_nil {α : Type} [DecidableEq α] (l₁ l₂ : List α)
    (h : l₁ ≠ [] ∨ l₂ ≠ []) : l₁ ++ l₂.filter (fun x => decide (x ∉ l₁)) ≠ [] := by
  cases l₁ with
  | cons y ys => simp
  | nil =>
      rcases h with h | h
      · exact absurd rfl h
      · simpa [List.filter_eq_self] using h

/-- C1: for all contacts A and B sharing a merge key, `merge(A,B)` and
`merge(B,A)` agree on the resulting field set, and
`merge(merge(A,B),B)` agrees with `merge(A,B)` on the field set;
`source_timestamps` is monotonic-max per source, which here makes even
its map equality hold. -/
theorem merge_comm_and_idem (a b : Contact)
    (h : mergeKey a = mergeKey b ∧ (mergeKey a).isSome = true) :
    fieldSetEq (merge a b) (merge b a) ∧
    fieldSetEq (merge (merge a b) b) (merge a b) := by
  clear h
  constructor
  · simp only [fieldSetEq, merge]
    refine ⟨?_, ?_, ?_, ?_, ?_, ?_, ?_, ?_⟩
    · exact SMap.merge_comm min (fun x y => min_comm x y) _ _
    · exact Finset.union_comm _ _
    · exact Finset.union_comm _ _
    · rw [toFinset_dedupAppend, toFinset_dedupAppend]; exact Finset.union_comm _ _
    · exact (pickScalar_comm _ _ _ _ a.names b.names).symm
    · exact (pickScalar_comm _ _ _ _ a.company b.company).symm
    · rw [toFinset_dedupAppend, toFinset_dedupAppend]; exact Finset.union_comm _ _
    · exact SMap.merge_comm max (fun x y => max_comm x y) _ _
  · simp only [fieldSetEq, merge]
    refine ⟨?_, ?_, ?_, ?_, ?_, ?_, ?_, ?_⟩
    · exact SMap.merge_absorb min (fun x y => by rw [min_assoc, min_self])
        (fun x => min_self x) _ _
    · rw [Finset.union_assoc, Finset.union_self]
    · rw [Finset.union_assoc, Finset.union_self]
    · rw [toFinset_dedupAppend, toFinset_dedupAppend,
        Finset.union_assoc, Finset.union_self]
    · rw [tsTop_merge, prioOf_merge]; exact pickScalar_absorb _ _ _ _ _ _
    · rw [tsTop_merge, prioOf_merge]; exact pickScalar_absorb _ _ _ _ _ _
    · rw [toFinset_dedupAppend, toFinset_dedupAppend,
        Finset.union_assoc, Finset.union_self]
    · exact SMap.merge_absorb max (fun x y => by rw [max_assoc, max_self])
        (fun x => max_self x) _ _

/-- Directory-source contact used as a concrete test vector. -/
def contactX : Contact :=
  { internal_id := "c1"
    source_ids := { directory := some "g1", pos := none, form := none }
    emails := {"a@x.com"}
    phones := {"123"}
    addresses := []
    names := "Ann Example"
    company := ""
    notes := ["called monday"]
    source_timestamps := { directory := some 10, pos := none, form := none } }

/-- Point-of-sale contact for the same person (same merge key up to
case). -/
def contactY : Contact :=
  { internal_id := "c2"
    source_ids := { directory := none, pos := some "s9", form := none }
    emails := {"A@X.com"}
    phones := ∅
    addresses := [{ street := "1 Main St", suburb := "Carlton", state := "VIC",
                    postcode := "3053", country := "AU" }]
    names := ""
    company := "OnYa"
    notes := ["till receipt"]
    source_timestamps := { directory := none, pos := some 12, form := none } }

theorem merge_comm_and_idem_witness :
    (mergeKey contactX = mergeKey contactY ∧ (mergeKey contactX).isSome = true) ∧
    (fieldSetEq (merge contactX contactY) (merge contactY contactX) ∧
     fieldSetEq (merge (merge contactX contactY) contactY) (merge contactX contactY)) :=
  ⟨by decide, merge_comm_and_idem contactX contactY (by decide)⟩

/-- C2: for contacts sharing a merge key, merging loses no information —
every field that is non-empty in either input is non-empty in the merged
contact (sets and sequences stay inhabited, scalars stay non-empty, and
every per-source id and timestamp entry present in either input is
present in the output). -/
theorem merge_no_info_loss (a b : Contact)
    (h : mergeKey a = mergeKey b ∧ (mergeKey a).isSome = true) :
    ((a.emails ≠ ∅ ∨ b.emails ≠ ∅) → (merge a b).emails ≠ ∅) ∧
    ((a.phones ≠ ∅ ∨ b.phones ≠ ∅) → (merge a b).phones ≠ ∅) ∧
    ((a.addresses ≠ [] ∨ b.addresses ≠ []) → (merge a b).addresses ≠ []) ∧
    ((a.names ≠ "" ∨ b.names ≠ "") → (merge a b).names ≠ "") ∧
    ((a.company ≠ "" ∨ b.company ≠ "") → (merge a b).company ≠ "") ∧
    ((a.notes ≠ [] ∨ b.notes ≠ []) → (merge a b).notes ≠ []) ∧
    (∀ s : Source, ((a.source_ids.get s).isSome ∨ (b.source_ids.get s).isSome) →
      ((merge a b).source_ids.get s).isSome) ∧
    (∀ s : Source, ((a.source_timestamps.get s).isSome ∨ (b.source_timestamps.get s).isSome) →
      ((merge a b).source_timestamps.get s).isSome) := by
  clear h
  simp only [merge]
  refine ⟨?_, ?_, ?_, ?_, ?_, ?_, ?_, ?_⟩
  · intro hne
    rw [Ne, Finset.union_eq_empty]
    tauto
  · intro hne
    rw [Ne, Finset.union_eq_empty]
    tauto
  · exact dedupAppend_ne_nil _ _
  · exact pickScalar_ne_empty _ _ _ _ _ _
  · exact pickScalar_ne_empty _ _ _ _ _ _
  · exact dedupAppend_ne_nil _ _
  · intro s hs
    cases s <;>
      (simp only [SMap.get] at hs ⊢
       rw [SMap.merge]
       simp only [combineOpt_isSome, Bool.or_eq_true]
       tauto)
  · intro s hs
    cases s <;>
      (simp only [SMap.get] at hs ⊢
       rw [SMap.merge]
       simp only [combineOpt_isSome, Bool.or_eq_true]
       tauto)

theorem merge_no_info_loss_witness :
    (mergeKey contactX = mergeKey contactY ∧ (mergeKey contactX).isSome = true) ∧
    (((contactX.emails ≠ ∅ ∨ contactY.emails ≠ ∅) → (merge contactX contactY).emails ≠ ∅) ∧
     ((contactX.phones ≠ ∅ ∨ contactY.phones ≠ ∅) → (merge contactX contactY).phones ≠ ∅) ∧
     ((contactX.addresses ≠ [] ∨ contactY.addresses ≠ []) →
       (merge contactX contactY).addresses ≠ []) ∧
     ((contactX.names ≠ "" ∨ contactY.names ≠ "") → (merge contactX contactY).names ≠ "") ∧
     ((contactX.company ≠ "" ∨ contactY.company ≠ "") →
       (merge contactX contactY).company ≠ "") ∧
     ((contactX.notes ≠ [] ∨ contactY.notes ≠ []) → (merge contactX contactY).notes ≠ []) ∧
     (∀ s : Source,
       ((contactX.source_ids.get s).isSome ∨ (contactY.source_ids.get s).isSome) →
         ((merge contactX contactY).source_ids.get s).isSome) ∧
     (∀ s : Source,
       ((contactX.source_timestamps.get s).isSome ∨
           (contactY.source_timestamps.get s).isSome) →
         ((merge contactX contactY).source_timestamps.get s).isSome)) :=
  ⟨by decide, merge_no_info_loss contactX contactY (by decide)⟩

/-- Modelled from the spec: connector error taxonomy of §7 (the
recoverable and signalling connector errors; `StorageFailure` concerns
the sync state store and is modelled as the cycle's `storageOk` flag). -/
inductive ConnError
  | AuthExpired
  | RateLimited
  | NotFound
  | TransientNetwork
deriving DecidableEq, Repr

/-- Modelled from the spec: a reconciliation trigger — a scheduled full
sync or a scoped incremental run for one native customer id (§4.4,
§9). -/
inductive EngineTrigger
  | full
  | incremental (nativeId : String)
deriving DecidableEq, Repr

/-- Modelled from the spec: webhook event types of the point-of-sale
source (create/update/delete/merge, §4.4). -/
inductive EventType
  | created
  | updated
  | deleted
  | merged
deriving DecidableEq, Repr

/-- Modelled from the spec: the source-native event envelope carried by
a webhook body (event type, native customer id, timestamp) together
with its idempotency key (§4.4, §6). -/
structure WebhookEvent where
  eventType : EventType
  nativeId : String
  timestamp : Nat
  idemKey : String
deriving DecidableEq, Repr

/-- A webhook delivery: the raw body (over which the HMAC signature is
computed), the signature header, and the parsed event envelope. -/
structure WebhookRequest where
  rawBody : String
  signature : String
  event : WebhookEvent
deriving DecidableEq, Repr

/-- Response of the webhook endpoint; `duplicate` is the duplicate
marker of §6. -/
structure WebhookResponse where
  status : Nat
  body : String
  duplicate : Bool
deriving DecidableEq, Repr

/-- Modelled from the spec: the change-event listener of §4.4
(`webhook_handler.py` is not in the repository snapshot).  `mac` is the
configured HMAC computation, `processed` the idempotency keys already
processed within the bounded replay window.  Verification failure is
rejected with 401 before any processing; a replayed idempotency key is
acknowledged 200 with the duplicate marker and dropped; otherwise the
event is acknowledged 200 and a scoped trigger is enqueued for the
Reconciliation Engine. -/
def webhookHandle (mac : String → String → String) (secret : String)
    (processed : List String) (req : WebhookRequest) :
    WebhookResponse × List String × List EngineTrigger :=
  if mac secret req.rawBody ≠ req.signature then
    ({ status := 401, body := "invalid signature", duplicate := false }, processed, [])
  else if req.event.idemKey ∈ processed then
    ({ status := 200, body := "duplicate", duplicate := true }, processed, [])
  else
    ({ status := 200, body := "queued", duplicate := false },
     req.event.idemKey :: processed,
     [EngineTrigger.incremental req.event.nativeId])

/-- Modelled from the spec: the inputs of one reconciliation cycle —
the outcome each connector's fetch would produce, the outcome each push
would produce, whether the wall-clock budget was exceeded, and whether
the sync state store is healthy (`storageOk = false` is
`StorageFailure`). -/
structure CycleInput where
  fetches : Source → Except ConnError (List Contact)
  pushResults : Source → Contact → Except ConnError Unit
  budgetExceeded : Bool
  storageOk : Bool

/-- The result of one reconciliation cycle: whether it aborted, the
recorded per-source fetch errors, the recorded per-(source, contact)
push errors, the merged contact set, and the state-store writes
(merge key ↦ contact). -/
structure CycleResult where
  aborted : Bool
  fetchErrors : List (Source × ConnError)
  pushErrors : List (Source × Contact × ConnError)
  merged : List Contact
  writes : List (String × Contact)

/-- All sources, in priority order. -/
def sourcesList : List Source := [Source.directory, Source.pos, Source.form]

/-- Sources that are push targets (§4.2: the local-form source is
origin-only, its push is a no-op). -/
def pushTargets : List Source := [Source.directory, Source.pos]

/-- A connector's contribution to the cycle: its fetched records, with a
failing connector demoted to the empty result (§4.3 FETCHING). -/
def fetchedOf (inp : CycleInput) (s : Source) : List Contact :=
  match inp.fetches s with
  | Except.ok l => l
  | Except.error _ => []

/-- The per-source fetch errors recorded during the cycle. -/
def fetchErrorsOf (inp : CycleInput) : List (Source × ConnError) :=
  sourcesList.filterMap (fun s =>
    match inp.fetches s with
    | Except.ok _ => none
    | Except.error e => some (s, e))

/-- Modelled from the spec: §4.3 MERGING — fold one record into the
group of already-merged contacts: merged into the first contact sharing
its merge key, appended otherwise; merge-key-less contacts are never
auto-merged. -/
def insertContact (acc : List Contact) (c : Contact) : List Contact :=
  match acc with
  | [] => [c]
  | d :: ds =>
      if (mergeKey d).isSome ∧ mergeKey d = mergeKey c then merge d c :: ds
      else d :: insertContact ds c

/-- Pairwise-left-fold merge of all fetched records, grouped by merge
key (§4.3 MERGING). -/
def mergeAll (cs : List Contact) : List Contact :=
  cs.foldl insertContact []

/-- The (source, contact) push attempts of a cycle: every merged
contact is pushed to every push-target connector, independently. -/
def pushAttemptsOf (inp : CycleInput) : List (Source × Contact) :=
  pushTargets.flatMap (fun s =>
    (mergeAll (fetchedOf inp Source.directory ++ fetchedOf inp Source.pos ++
      fetchedOf inp Source.form)).map (fun c => (s, c)))

/-- Modelled from the spec: one reconciliation cycle (§4.3, §7).  The
cycle aborts — with nothing fetched, merged, pushed or persisted — only
on `StorageFailure` or an exceeded wall-clock budget; otherwise every
connector is fetched (errors demoted to empty contributions and
recorded), the records are merged by key, every merged contact is pushed
to every push target (push errors recorded per (source, contact)), and
the completed contacts are persisted by merge key. -/
def runCycle (inp : CycleInput) : CycleResult :=
  if inp.budgetExceeded || !inp.storageOk then
    { aborted := true, fetchErrors := [], pushErrors := [], merged := [], writes := [] }
  else
    let merged := mergeAll (fetchedOf inp Source.directory ++ fetchedOf inp Source.pos ++
      fetchedOf inp Source.form)
    { aborted := false
      fetchErrors := fetchErrorsOf inp
      pushErrors := (pushAttemptsOf inp).filterMap (fun sc =>
        match inp.pushResults sc.1 sc.2 with
        | Except.ok _ => none
        | Except.error e => some (sc.1, sc.2, e))
      merged := merged
      writes := merged.filterMap (fun c => (mergeKey c).map (fun k => (k, c))) }

/-- The state-store writes produced by processing one queued trigger:
one cycle, scoped to the trigger's native id for incremental runs. -/
def triggerWrites (inp : CycleInput) : EngineTrigger → List (String × Contact)
  | EngineTrigger.full => (runCycle inp).writes
  | EngineTrigger.incremental nid =>
      (runCycle inp).writes.filter (fun kc => decide (kc.2.source_ids.pos = some nid))

/-- The state-store writes produced by processing a queue of triggers in
order. -/
def processTriggers (inp : CycleInput) (ts : List EngineTrigger) : List (String × Contact) :=
  ts.flatMap (triggerWrites inp)

/-- C3: a webhook delivery whose HMAC signature does not verify against
the configured secret is answered 401 and causes no further work: the
processed-key state is unchanged, no trigger reaches the Reconciliation
Engine, and no state-store write is produced. -/
theorem webhook_bad_signature_rejected
    (mac : String → String → String) (secret : String)
    (processed : List String) (req : WebhookRequest) (inp : CycleInput)
    (h : mac secret req.rawBody ≠ req.signature) :
    (webhookHandle mac secret processed req).1.status = 401 ∧
    (webhookHandle mac secret processed req).2.1 = processed ∧
    (webhookHandle mac secret processed req).2.2 = [] ∧
    processTriggers inp (webhookHandle mac secret processed req).2.2 = [] := by
  simp [webhookHandle, h, processTriggers]

/-- A stand-in deterministic MAC used for concrete test vectors. -/
def macConcat (secret body : String) : String := secret ++ "." ++ body

/-- A webhook delivery for native id 42 whose signature is wrong. -/
def webhookReqBad : WebhookRequest :=
  { rawBody := "body42"
    signature := "nope"
    event := { eventType := EventType.updated, nativeId := "42",
               timestamp := 5, idemKey := "k1" } }

/-- A correctly signed webhook delivery for native id 42 with
idempotency key `k1`. -/
def webhookReqGood : WebhookRequest :=
  { rawBody := "body42"
    signature := macConcat "sec" "body42"
    event := { eventType := EventType.updated, nativeId := "42",
               timestamp := 5, idemKey := "k1" } }

/-- A healthy cycle input with nothing to fetch. -/
def cycleInputTrivial : CycleInput :=
  { fetches := fun _ => Except.ok []
    pushResults := fun _ _ => Except.ok ()
    budgetExceeded := false
    storageOk := true }

theorem webhook_bad_signature_rejected_witness :
    macConcat "sec" webhookReqBad.rawBody ≠ webhookReqBad.signature ∧
    ((webhookHandle macConcat "sec" ["k0"] webhookReqBad).1.status = 401 ∧
     (webhookHandle macConcat "sec" ["k0"] webhookReqBad).2.1 = ["k0"] ∧
     (webhookHandle macConcat "sec" ["k0"] webhookReqBad).2.2 = [] ∧
     processTriggers cycleInputTrivial
       (webhookHandle macConcat "sec" ["k0"] webhookReqBad).2.2 = []) :=
  ⟨by decide, webhook_bad_signature_rejected macConcat "sec" ["k0"] webhookReqBad
    cycleInputTrivial (by decide)⟩

/-- C4: a correctly signed webhook delivery whose idempotency key was
already processed within the bounded window is acknowledged 200 with
the duplicate marker, is dropped before the Reconciliation Engine (no
trigger is enqueued, the processed-key state is unchanged), and
produces zero state-store writes. -/
theorem webhook_duplicate_dropped
    (mac : String → String → String) (secret : String)
    (processed : List String) (req : WebhookRequest) (inp : CycleInput)
    (hsig : mac secret req.rawBody = req.signature)
    (hdup : req.event.idemKey ∈ processed) :
    (webhookHandle mac secret processed req).1 =
      { status := 200, body := "duplicate", duplicate := true } ∧
    (webhookHandle mac secret processed req).2.1 = processed ∧
    (webhookHandle mac secret processed req).2.2 = [] ∧
    processTriggers inp (webhookHandle mac secret processed req).2.2 = [] := by
  simp [webhookHandle, hsig, hdup, processTriggers]

theorem webhook_duplicate_dropped_witness :
    macConcat "sec" webhookReqGood.rawBody = webhookReqGood.signature ∧
    webhookReqGood.event.idemKey ∈ ["k1", "k0"] ∧
    ((webhookHandle macConcat "sec" ["k1", "k0"] webhookReqGood).1 =
       { status := 200, body := "duplicate", duplicate := true } ∧
     (webhookHandle macConcat "sec" ["k1", "k0"] webhookReqGood).2.1 = ["k1", "k0"] ∧
     (webhookHandle macConcat "sec" ["k1", "k0"] webhookReqGood).2.2 = [] ∧
     processTriggers cycleInputTrivial
       (webhookHandle macConcat "sec" ["k1", "k0"] webhookReqGood).2.2 = []) :=
  ⟨by decide, by decide,
   webhook_duplicate_dropped macConcat "sec" ["k1", "k0"] webhookReqGood
     cycleInputTrivial (by decide) (by decide)⟩

/-- C6: when neither the wall-clock budget is exceeded nor the state
store fails, a reconciliation cycle never aborts: every failing fetch is
recorded and its contribution demoted to the empty result, every
successful fetch contributes its records, all contributions are merged,
every merged contact is still pushed to every push target, and push
failures are recorded per (source, contact); conversely an exceeded
budget or a storage failure aborts the whole cycle with no writes. -/
lemma runCycle_healthy (inp : CycleInput) (hb : inp.budgetExceeded = false)
    (hs : inp.storageOk = true) :
    runCycle inp =
      { aborted := false
        fetchErrors := fetchErrorsOf inp
        pushErrors := (pushAttemptsOf inp).filterMap (fun sc =>
          match inp.pushResults sc.1 sc.2 with
          | Except.ok _ => none
          | Except.error e => some (sc.1, sc.2, e))
        merged := mergeAll (fetchedOf inp Source.directory ++ fetchedOf inp Source.pos ++
          fetchedOf inp Source.form)
        writes := (mergeAll (fetchedOf inp Source.directory ++ fetchedOf inp Source.pos ++
          fetchedOf inp Source.form)).filterMap
            (fun c => (mergeKey c).map (fun k => (k, c))) } := by
  simp [runCycle, hb, hs]

theorem cycle_error_isolation (inp : CycleInput)
    (hb : inp.budgetExceeded = false) (hs : inp.storageOk = true) :
    (runCycle inp).aborted = false ∧
    (∀ s e, inp.fetches s = Except.error e →
      (s, e) ∈ (runCycle inp).fetchErrors ∧ fetchedOf inp s = []) ∧
    (∀ s l, inp.fetches s = Except.ok l → fetchedOf inp s = l) ∧
    (runCycle inp).merged = mergeAll (fetchedOf inp Source.directory ++
      fetchedOf inp Source.pos ++ fetchedOf inp Source.form) ∧
    (∀ s c, s ∈ pushTargets → c ∈ (runCycle inp).merged → (s, c) ∈ pushAttemptsOf inp) ∧
    (∀ s c e, (s, c) ∈ pushAttemptsOf inp → inp.pushResults s c = Except.error e →
      (s, c, e) ∈ (runCycle inp).pushErrors) ∧
    (∀ inp' : CycleInput, (inp'.budgetExceeded = true ∨ inp'.storageOk = false) →
      (runCycle inp').aborted = true ∧ (runCycle inp').writes = []) := by
  rw [runCycle_healthy inp hb hs]
  refine ⟨rfl, ?_, ?_, rfl, ?_, ?_, ?_⟩
  · intro s e he
    refine ⟨?_, ?_⟩
    · simp only [fetchErrorsOf, List.mem_filterMap]
      exact ⟨s, by cases s <;> simp [sourcesList], by rw [he]⟩
    · simp [fetchedOf, he]
  · intro s l hl
    simp [fetchedOf, hl]
  · intro s c hsB hc
    simp only [pushAttemptsOf, List.mem_flatMap, List.mem_map]
    exact ⟨s, hsB, c, hc, rfl⟩
  · intro s c e hmem hpe
    simp only [List.mem_filterMap]
    exact ⟨(s, c), hmem, by rw [hpe]⟩
  · intro inp' h'
    rcases h' with h' | h' <;> simp [runCycle, h']

/-- Scenario-3 test vector: the directory connector is rate limited, the
point-of-sale connector returns one contact, the form store is empty. -/
def cycleInputRateLimited : CycleInput :=
  { fetches := fun s =>
      match s with
      | Source.directory => Except.error ConnError.RateLimited
      | Source.pos => Except.ok [contactY]
      | Source.form => Except.ok []
    pushResults := fun _ _ => Except.ok ()
    budgetExceeded := false
    storageOk := true }

theorem cycle_error_isolation_witness :
    cycleInputRateLimited.budgetExceeded = false ∧
    cycleInputRateLimited.storageOk = true ∧
    ((runCycle cycleInputRateLimited).aborted = false ∧
     (∀ s e, cycleInputRateLimited.fetches s = Except.error e →
       (s, e) ∈ (runCycle cycleInputRateLimited).fetchErrors ∧
         fetchedOf cycleInputRateLimited s = []) ∧
     (∀ s l, cycleInputRateLimited.fetches s = Except.ok l →
       fetchedOf cycleInputRateLimited s = l) ∧
     (runCycle cycleInputRateLimited).merged =
       mergeAll (fetchedOf cycleInputRateLimited Source.directory ++
         fetchedOf cycleInputRateLimited Source.pos ++
         fetchedOf cycleInputRateLimited Source.form) ∧
     (∀ s c, s ∈ pushTargets → c ∈ (runCycle cycleInputRateLimited).merged →
       (s, c) ∈ pushAttemptsOf cycleInputRateLimited) ∧
     (∀ s c e, (s, c) ∈ pushAttemptsOf cycleInputRateLimited →
       cycleInputRateLimited.pushResults s c = Except.error e →
         (s, c, e) ∈ (runCycle cycleInputRateLimited).pushErrors) ∧
     (∀ inp' : CycleInput, (inp'.budgetExceeded = true ∨ inp'.storageOk = false) →
       (runCycle inp').aborted = true ∧ (runCycle inp').writes = [])) :=
  ⟨rfl, rfl, cycle_error_isolation cycleInputRateLimited rfl rfl⟩

/-- A portable JSON value, the target of `export` (§6). -/
inductive Json
  | null
  | str (s : String)
  | num (n : Nat)
  | arr (xs : List Json)
  | obj (fields : List (String × Json))

/-- Encode an optional string (`null` when absent). -/
def encodeOptStr : Option String → Json
  | none => Json.null
  | some s => Json.str s

/-- Decode an optional string. -/
def decodeOptStr : Json → Option (Option String)
  | Json.null => some none
  | Json.str s => some (some s)
  | _ => none

/-- Encode an optional timestamp. -/
def encodeOptNat : Option Nat → Json
  | none => Json.null
  | some n => Json.num n

/-- Decode an optional timestamp. -/
def decodeOptNat : Json → Option (Option Nat)
  | Json.null => some none
  | Json.num n => some (some n)
  | _ => none

/-- Encode a per-source map of strings. -/
def encodeSMapStr (m : SMap String) : Json :=
  Json.obj [("directory", encodeOptStr m.directory), ("pos", encodeOptStr m.pos),
    ("form", encodeOptStr m.form)]

/-- Decode a per-source map of strings. -/
def decodeSMapStr : Json → Option (SMap String)
  | Json.obj [("directory", jd), ("pos", jp), ("form", jf)] =>
      match decodeOptStr jd, decodeOptStr jp, decodeOptStr jf with
      | some d, some p, some f => some { directory := d, pos := p, form := f }
      | _, _, _ => none
  | _ => none

/-- Encode a per-source map of timestamps. -/
def encodeSMapNat (m : SMap Nat) : Json :=
  Json.obj [("directory", encodeOptNat m.directory), ("pos", encodeOptNat m.pos),
    ("form", encodeOptNat m.form)]

/-- Decode a per-source map of timestamps. -/
def decodeSMapNat : Json → Option (SMap Nat)
  | Json.obj [("directory", jd), ("pos", jp), ("form", jf)] =>
      match decodeOptNat jd, decodeOptNat jp, decodeOptNat jf with
      | some d, some p, some f => some { directory := d, pos := p, form := f }
      | _, _, _ => none
  | _ => none

/-- Encode an address record. -/
def encodeAddress (a : Address) : Json :=
  Json.obj [("street", Json.str a.street), ("suburb", Json.str a.suburb),
    ("state", Json.str a.state), ("postcode", Json.str a.postcode),
    ("country", Json.str a.country)]

/-- Decode an address record. -/
def decodeAddress : Json → Option Address
  | Json.obj [("street", Json.str st), ("suburb", Json.str su), ("state", Json.str sa),
      ("postcode", Json.str pc), ("country", Json.str co)] =>
      some { street := st, suburb := su, state := sa, postcode := pc, country := co }
  | _ => none

/-- Decode a list of JSON strings. -/
def decodeStrList : List Json → Option (List String)
  | [] => some []
  | Json.str s :: rest => (decodeStrList rest).map (s :: ·)
  | _ => none

/-- Decode a list of encoded addresses. -/
def decodeAddrList : List Json → Option (List Address)
  | [] => some []
  | j :: rest =>
      match decodeAddress j, decodeAddrList rest with
      | some a, some l => some (a :: l)
      | _, _ => none

/-- Modelled from the spec: serialization of one Contact for `export`
(§6); sets are emitted as sorted arrays. -/
def encodeContact (c : Contact) : Json :=
  Json.obj [("internal_id", Json.str c.internal_id),
    ("source_ids", encodeSMapStr c.source_ids),
    ("emails", Json.arr ((c.emails.sort (· ≤ ·)).map Json.str)),
    ("phones", Json.arr ((c.phones.sort (· ≤ ·)).map Json.str)),
    ("addresses", Json.arr (c.addresses.map encodeAddress)),
    ("names", Json.str c.names),
    ("company", Json.str c.company),
    ("notes", Json.arr (c.notes.map Json.str)),
    ("source_timestamps", encodeSMapNat c.source_timestamps)]

/-- Modelled from the spec: deserialization of one Contact for `import`
(§6). -/
def decodeContact : Json → Option Contact
  | Json.obj [("internal_id", Json.str iid),
      ("source_ids", jids),
      ("emails", Json.arr jemails),
      ("phones", Json.arr jphones),
      ("addresses", Json.arr jaddrs),
      ("names", Json.str nm),
      ("company", Json.str co),
      ("notes", Json.arr jnotes),
      ("source_timestamps", jts)] =>
      match decodeSMapStr jids, decodeStrList jemails, decodeStrList jphones,
          decodeAddrList jaddrs, decodeStrList jnotes, decodeSMapNat jts with
      | some ids, some ems, some phs, some ads, some nts, some ts =>
          some { internal_id := iid, source_ids := ids, emails := ems.toFinset,
                 phones := phs.toFinset, addresses := ads, names := nm,
                 company := co, notes := nts, source_timestamps := ts }
      | _, _, _, _, _, _ => none
  | _ => none

/-- Decode a list of encoded contacts. -/
def decodeContactList : List Json → Option (List Contact)
  | [] => some []
  | j :: rest =>
      match decodeContact j, decodeContactList rest with
      | some c, some l => some (c :: l)
      | _, _ => none

/-- Modelled from the spec: `export` — serialize the full Contact set to
a portable JSON array (§6). -/
def exportContacts (cs : List Contact) : Json :=
  Json.arr (cs.map encodeContact)

/-- Modelled from the spec: `import` — deserialize a portable JSON array
back into the Contact set (§6). -/
def importContacts : Json → Option (List Contact)
  | Json.arr xs => decodeContactList xs
  | _ => none

lemma decodeOptStr_encode (x : Option String) : decodeOptStr (encodeOptStr x) = some x := by
  cases x <;> rfl

lemma decodeOptNat_encode (x : Option Nat) : decodeOptNat (encodeOptNat x) = some x := by
  cases x <;> rfl

lemma decodeSMapStr_encode (m : SMap String) : decodeSMapStr (encodeSMapStr m) = some m := by
  obtain ⟨d, p, f⟩ := m
  simp [encodeSMapStr, decodeSMapStr, decodeOptStr_encode]

lemma decodeSMapNat_encode (m : SMap Nat) : decodeSMapNat (encodeSMapNat m) = some m := by
  obtain ⟨d, p, f⟩ := m
  simp [encodeSMapNat, decodeSMapNat, decodeOptNat_encode]

lemma decodeAddress_encode (a : Address) : decodeAddress (encodeAddress a) = some a := by
  obtain ⟨st, su, sa, pc, co⟩ := a
  rfl

lemma decodeStrList_map (l : List String) : decodeStrList (l.map Json.str) = some l := by
  induction l with
  | nil => rfl
  | cons s rest ih => simp [decodeStrList, ih]

lemma decodeAddrList_map (l : List Address) :
    decodeAddrList (l.map encodeAddress) = some l := by
  induction l with
  | nil => rfl
  | cons a rest ih => simp [decodeAddrList, decodeAddress_encode, ih]

lemma decodeContact_encode (c : Contact) : decodeContact (encodeContact c) = some c := by
  obtain ⟨iid, ids, ems, phs, ads, nm, co, nts, ts⟩ := c
  simp [encodeContact, decodeContact, decodeSMapStr_encode, decodeSMapNat_encode,
    decodeStrList_map, decodeAddrList_map, Finset.sort_toFinset]

/-- C8: importing the output of export yields the same contact set. -/
theorem export_import_roundtrip (cs : List Contact) :
    importContacts (exportContacts cs) = some cs := by
  rw [exportContacts, importContacts]
  induction cs with
  | nil => rfl
  | cons c rest ih => simp [decodeContactList, decodeContact_encode, ih]

/-- A fully populated form submission (the routing test script's
payload, plus address fields). -/
def subFull : Submission :=
  { first_name := some "Router", surname := some "Tester", number := some "0400000000",
    location := some "Test Lab", address_line_1 := some "1 Main St",
    suburb := some "Carlton", state := some "VIC", postcode := some "3053",
    country := some "AU", escooter_make := some "Xiaomi", escooter_model := some "M365",
    issue := some "General Inquiry", issue_extra := some "brakes", website_url := none }

/-- A submission with every field absent. -/
def subEmpty : Submission :=
  { first_name := none, surname := none, number := none, location := none,
    address_line_1 := none, suburb := none, state := none, postcode := none,
    country := none, escooter_make := none, escooter_model := none,
    issue := none, issue_extra := none, website_url := none }

/-- C5 counterexample: the record the router forwards to contact-sync
does not have exactly the twelve claimed fields — it additionally
carries `escooter1` — and an absent `issue` does not normalize to the
empty sentinel but to the fabricated non-empty `notes` value
`"No Issue: "`. -/
theorem sync_boundary_counterexample :
    (syncData subFull "2026-02-13T12:00:00Z").jsonFields ≠ specBoundaryFields ∧
    "escooter1" ∈ (syncData subFull "2026-02-13T12:00:00Z").jsonFields ∧
    "escooter1" ∉ specBoundaryFields ∧
    (syncData subEmpty "2026-02-13T12:00:00Z").notes = "No Issue: " ∧
    (syncData subEmpty "2026-02-13T12:00:00Z").notes ≠ "" := by
  refine ⟨?_, ?_, ?_, ?_, ?_⟩ <;> decide

/-- Whether an optional input value is the "no value" sentinel: absent
or the empty string. -/
def noValue (x : Option String) : Prop :=
  x = none ∨ x = some ""

/-- C5 amended: every record the router forwards to contact-sync has
exactly the claimed fields plus `escooter1`, with `first_name`,
`last_name` and `phone` present exactly when the input provides them
(passed through unchanged, never `null`); `email` and `company` are
always the empty sentinel; for each of the five address fields an
absent input and an empty-string input both normalize to the
empty-string sentinel while a non-empty input passes through unchanged;
the escooter components normalize the same sentinel cases to an empty
`escooter1`; `notes` is fabricated as
`<issue or "No Issue">: <issue_extra or "">` and is never empty;
`timestamp` is generated at forwarding time. -/
theorem sync_boundary_amended (r : Submission) (now : String) :
    (syncData r now).jsonFields =
      (if r.first_name.isSome then ["first_name"] else []) ++
      (if r.surname.isSome then ["last_name"] else []) ++
      (if r.number.isSome then ["phone"] else []) ++
      ["email", "address_line_1", "suburb", "state", "postcode", "country",
       "company", "notes", "escooter1", "timestamp"] ∧
    (syncData r now).first_name = r.first_name ∧
    (syncData r now).last_name = r.surname ∧
    (syncData r now).phone = r.number ∧
    (syncData r now).email = "" ∧
    (syncData r now).company = "" ∧
    (noValue r.address_line_1 → (syncData r now).address_line_1 = "") ∧
    (∀ s, s ≠ "" → r.address_line_1 = some s → (syncData r now).address_line_1 = s) ∧
    (noValue r.suburb → (syncData r now).suburb = "") ∧
    (∀ s, s ≠ "" → r.suburb = some s → (syncData r now).suburb = s) ∧
    (noValue r.state → (syncData r now).state = "") ∧
    (∀ s, s ≠ "" → r.state = some s → (syncData r now).state = s) ∧
    (noValue r.postcode → (syncData r now).postcode = "") ∧
    (∀ s, s ≠ "" → r.postcode = some s → (syncData r now).postcode = s) ∧
    (noValue r.country → (syncData r now).country = "") ∧
    (∀ s, s ≠ "" → r.country = some s → (syncData r now).country = s) ∧
    (noValue r.escooter_make → noValue r.escooter_model →
      (syncData r now).escooter1 = "") ∧
    (syncData r now).notes = jsOr r.issue "No Issue" ++ ": " ++ jsOr r.issue_extra "" ∧
    (syncData r now).notes ≠ "" ∧
    (syncData r now).timestamp = now := by
  refine ⟨rfl, rfl, rfl, rfl, rfl, rfl, ?_, ?_, ?_, ?_, ?_, ?_, ?_, ?_, ?_, ?_, ?_,
    rfl, ?_, rfl⟩
  · rintro (h | h) <;> simp [syncData, jsOr, h]
  · intro s hs h
    simp [syncData, jsOr, h, hs]
  · rintro (h | h) <;> simp [syncData, jsOr, h]
  · intro s hs h
    simp [syncData, jsOr, h, hs]
  · rintro (h | h) <;> simp [syncData, jsOr, h]
  · intro s hs h
    simp [syncData, jsOr, h, hs]
  · rintro (h | h) <;> simp [syncData, jsOr, h]
  · intro s hs h
    simp [syncData, jsOr, h, hs]
  · rintro (h | h) <;> simp [syncData, jsOr, h]
  · intro s hs h
    simp [syncData, jsOr, h, hs]
  · rintro (h | h) (h' | h') <;> simp [syncData, jsOr, jsTrim, isSpaceChar, h, h']
  · intro hc
    have hlen := congrArg String.length hc
    rw [syncData] at hlen
    simp only [String.length_append] at hlen
    have hmid : String.length ": " = 2 := rfl
    have h0 : String.length "" = 0 := rfl
    omega

theorem sync_boundary_amended_witness :
    (syncData subEmpty "t0").address_line_1 = "" ∧
    (syncData subFull "t0").address_line_1 = "1 Main St" ∧
    (syncData subFull "t0").suburb = "Carlton" ∧
    (syncData subEmpty "t0").escooter1 = "" ∧
    (syncData subEmpty "t0").notes ≠ "" ∧
    (syncData subFull "t0").timestamp = "t0" :=
  ⟨(sync_boundary_amended subEmpty "t0").2.2.2.2.2.2.1 (Or.inl rfl),
   (sync_boundary_amended subFull "t0").2.2.2.2.2.2.2.1 "1 Main St" (by decide) rfl,
   (sync_boundary_amended subFull "t0").2.2.2.2.2.2.2.2.2.1 "Carlton" (by decide) rfl,
   (sync_boundary_amended subEmpty
     "t0").2.2.2.2.2.2.2.2.2.2.2.2.2.2.2.2.1 (Or.inl rfl) (Or.inl rfl),
   (sync_boundary_amended subEmpty "t0").2.2.2.2.2.2.2.2.2.2.2.2.2.2.2.2.2.2.1,
   (sync_boundary_amended subFull "t0").2.2.2.2.2.2.2.2.2.2.2.2.2.2.2.2.2.2.2⟩

/-- The fixed success response of the router's `/submit` handler. -/
def routerSuccessResponse : RouterResponse :=
  { status := 200
    success := true
    message := "Submission received and routing in progress" }

/-- C7: the fan-out router's `/submit` handler forwards exactly one copy
of the submission to each of its three downstream services — contact
sync, the node-box alert relay, the email notifier — and returns the
fixed 200 success response; neither the forwards nor the response depend
on any downstream outcome (the posts are fire-and-forget), and the
handler is a pure function of the request alone, keeping no state
between requests. -/
theorem router_fanout (r : Submission) (now : String)
    (o o' : DownstreamOutcome × DownstreamOutcome × DownstreamOutcome) :
    routerRespond r o = routerSuccessResponse ∧
    routerRespond r o = routerRespond r o' ∧
    (routerForwards r now).map Prod.fst = [contactSyncUrl, nodeBoxUrl, emailServiceUrl] ∧
    ((routerForwards r now).map Prod.fst).Nodup :=
  ⟨rfl, rfl, rfl, by
    rw [show (routerForwards r now).map Prod.fst =
      [contactSyncUrl, nodeBoxUrl, emailServiceUrl] from rfl]
    decide⟩

/-- C9: a `/send-email` request whose honeypot field `website_url` is
non-empty is answered with the very success response a genuine
successful send produces, and performs no side effects: no SMTP send is
attempted and nothing is forwarded to contact-sync or the push webhook —
in both versions of the handler. -/
theorem honeypot_fake_success (r : Submission) (smtp : SmtpResult) (now : String)
    (h : jsTruthy r.website_url = true) :
    sendEmailV1 r smtp now = (emailSuccessResponse, []) ∧
    sendEmailV2 r smtp = (emailSuccessResponse, []) ∧
    (∀ r' : Submission, jsTruthy r'.website_url = false →
      (sendEmailV1 r' SmtpResult.ok now).1 = emailSuccessResponse) := by
  refine ⟨?_, ?_, ?_⟩
  · simp [sendEmailV1, h]
  · simp [sendEmailV2, h]
  · intro r' h'
    simp [sendEmailV1, h']

/-- A spam submission: the honeypot field is filled. -/
def subSpam : Submission :=
  { subFull with website_url := some "http://spam.example" }

theorem honeypot_fake_success_witness :
    jsTruthy subSpam.website_url = true ∧
    (sendEmailV1 subSpam (SmtpResult.err "boom") "t0" = (emailSuccessResponse, []) ∧
     sendEmailV2 subSpam (SmtpResult.err "boom") = (emailSuccessResponse, []) ∧
     (∀ r' : Submission, jsTruthy r'.website_url = false →
       (sendEmailV1 r' SmtpResult.ok "t0").1 = emailSuccessResponse)) :=
  ⟨by decide, honeypot_fake_success subSpam (SmtpResult.err "boom") "t0" (by decide)⟩

/-- C10: the two `/send-email` handler versions are response-equivalent —
same status and body on every request (fake success on honeypot, 200 on
SMTP success, 500 with the error message on SMTP failure); they differ
only in the background forwards of the first version, which never affect
the response: dropping the forward effects of version one yields exactly
the effects of version two. -/
theorem send_email_versions_equiv (r : Submission) (smtp : SmtpResult) (now : String) :
    (sendEmailV1 r smtp now).1 = (sendEmailV2 r smtp).1 ∧
    (sendEmailV1 r smtp now).2.filter (fun e => !e.isForward) = (sendEmailV2 r smtp).2 ∧
    (∀ e, e ∈ (sendEmailV1 r smtp now).2 → e ∉ (sendEmailV2 r smtp).2 →
      e.isForward = true) := by
  by_cases h : jsTruthy r.website_url <;> cases smtp <;>
    simp [sendEmailV1, sendEmailV2, h, EmailEffect.isForward, List.filter] <;>
    (intro e he hne; rcases he with he | he | he <;> simp_all [EmailEffect.isForward])

end ContactSync
